import Mathlib

/-!
Verification development for the deep-facility geospatial pipeline.

The definitions below are shallow embeddings of the Python source modules:
tabular data (pandas DataFrames) is modelled column-major as association
lists from column names to columns of real values, filesystem state is a
map from paths to optional contents, and external fitting routines
(sklearn KMeans) are opaque function parameters.  Machine floats are
modelled by real numbers.
-/

namespace DeepFacility

/-! ## DataFrame model (column-major association list) -/

/-- A DataFrame: ordered association of column names to value columns. -/
abbrev DF := List (String × List ℝ)

/-- Column names of a DataFrame, in order. -/
def colNames (df : DF) : List String := df.map Prod.fst

/-- Values of a named column (first match), empty if absent. -/
def getCol (df : DF) (c : String) : List ℝ :=
  match df.find? (fun e => decide (e.1 = c)) with
  | some e => e.2
  | none => []

/-- Column assignment, pandas style: replace in place when the name
exists, append at the end otherwise. -/
def setCol (df : DF) (c : String) (v : List ℝ) : DF :=
  if c ∈ colNames df then
    df.map (fun e => if e.1 = c then (c, v) else e)
  else df ++ [(c, v)]

/-- Number of rows (length of the first column; 0 for no columns). -/
def nRows (df : DF) : ℕ :=
  match df with
  | [] => 0
  | e :: _ => e.2.length

/-- Drop the named columns. -/
def dropCols (df : DF) (cs : List String) : DF :=
  df.filter (fun e => decide (e.1 ∉ cs))

/-- Select the named columns, in the given order. -/
def selectCols (df : DF) (cs : List String) : DF :=
  cs.map (fun c => (c, getCol df c))

/-- Row-major view of the named columns (df[cols].to_numpy()). -/
def colsValues (df : DF) (cs : List String) : List (List ℝ) :=
  (cs.map (fun c => getCol df c)).transpose

/-- Row-major view of the whole frame. -/
def rowsOfDF (df : DF) : List (List ℝ) := (df.map Prod.snd).transpose

/-- Rebuild a column-major frame from names and row-major data. -/
def dfOfRows (names : List String) (rows : List (List ℝ)) : DF :=
  names.zip rows.transpose

/-! ## tasks/distance.py -/

/-- Embeds convert_to_cartesian: spherical Earth model, degrees to
Earth-centered Cartesian meters.  np.radians d = d * pi / 180. -/
noncomputable def convert_to_cartesian (lon lat : ℝ) (elevation : ℝ) : ℝ × ℝ × ℝ :=
  let earth_radius : ℝ := 6378137.0
  let lat2 := lat * (Real.pi / 180)
  let lon2 := lon * (Real.pi / 180)
  let R := earth_radius + elevation
  (R * Real.cos lat2 * Real.cos lon2, R * Real.cos lat2 * Real.sin lon2, R * Real.sin lat2)

/-- Euclidean distance of two coordinate vectors (scipy cdist row). -/
noncomputable def euclid (u v : List ℝ) : ℝ :=
  Real.sqrt (((u.zip v).map (fun t => (t.1 - t.2) ^ 2)).sum)

/-- Minimum of a list of reals (numpy min along an axis). -/
noncomputable def listMin : List ℝ → ℝ
  | [] => 0
  | [x] => x
  | x :: y :: ys => min x (listMin (y :: ys))

/-- Index of the first minimum of a list of reals (numpy argmin). -/
noncomputable def argminIdx : List ℝ → ℕ
  | [] => 0
  | [_] => 0
  | x :: y :: ys => if x ≤ listMin (y :: ys) then 0 else argminIdx (y :: ys) + 1

/-- Embeds find_nearest_facility: pairwise Euclidean distances, then the
first-minimum index and the minimum distance per location row. -/
noncomputable def find_nearest_facility (location_xy facility_xy : List (List ℝ)) :
    List ℕ × List ℝ :=
  (location_xy.map (fun p => argminIdx (facility_xy.map (fun f => euclid p f))),
   location_xy.map (fun p => listMin (facility_xy.map (fun f => euclid p f))))

/-- Python str.rstrip with the character set of "_loc": removes trailing
characters drawn from that set. -/
def rstrip_loc (s : String) : String :=
  String.mk ((s.data.reverse.dropWhile (fun ch => ch ∈ ['_', 'l', 'o', 'c'])).reverse)

/-- Row-wise Minkowski distances between the suffixed coordinate columns
of a merged frame (scipy distance.minkowski). -/
noncomputable def minkowski_col (df : DF) (p : ℝ) : List ℝ :=
  let dx := List.zipWith (fun a b => |a - b| ^ p) (getCol df ("x_loc")) (getCol df ("x_facility"))
  let dy := List.zipWith (fun a b => |a - b| ^ p) (getCol df ("y_loc")) (getCol df ("y_facility"))
  let dz := List.zipWith (fun a b => |a - b| ^ p) (getCol df ("z_loc")) (getCol df ("z_facility"))
  (List.zipWith (· + ·) dx (List.zipWith (· + ·) dy dz)).map (fun s => s ^ (1 / p))

/-- Embeds calculate_minkowski_from_cartesian: inner merge of locations
and facilities on the key columns with suffixes, a Minkowski distance
column, suffix-stripping of the left columns, and selection of the
original location columns plus the distance column. -/
noncomputable def calculate_minkowski_from_cartesian (df_locations df_facilities : DF)
    (left_on right_on : String) (p : ℝ) (distance_col : String) : DF :=
  let lnames := colNames df_locations
  let rnames := colNames df_facilities
  let lnames2 := lnames.map (fun c => if c ∈ rnames then c ++ "_loc" else c)
  let rnames2 := rnames.map (fun c => if c ∈ lnames then c ++ "_facility" else c)
  let lrows := rowsOfDF df_locations
  let rrows := rowsOfDF df_facilities
  let li := lnames.findIdx (fun c => c = left_on)
  let ri := rnames.findIdx (fun c => c = right_on)
  let mrows := lrows.flatMap
    (fun lr => (rrows.filter (fun rr => decide (rr.getD ri 0 = lr.getD li 0))).map
      (fun rr => lr ++ rr))
  let df_merged := dfOfRows (lnames2 ++ rnames2) mrows
  let df_merged := setCol df_merged distance_col (minkowski_col df_merged p)
  let renamed : DF := df_merged.map
    (fun e => (if ("_loc").data.isSuffixOf e.1.data then rstrip_loc e.1 else e.1, e.2))
  let cols_to_keep := colNames df_locations ++ [distance_col]
  selectCols renamed cols_to_keep

/-- Embeds calculate_distance_df.  The Python function mutates both input
frames in place and returns a separately built result frame; the embedding
returns the triple (final state of df, final state of df2, returned frame). -/
noncomputable def calculate_distance_df (df : DF) (xy_cols : List String)
    (df2 : DF) (xy_cols2 : List String) (colPrefix : String) (id_col : String) :
    DF × DF × DF :=
  if nRows df = 0 ∨ nRows df2 = 0 then (df, df2, df)
  else
    let lon := getCol df (xy_cols.getD 0 "")
    let lat := getCol df (xy_cols.getD 1 "")
    let dfA := setCol df ("x") (List.zipWith (fun lo la => (convert_to_cartesian lo la 0).1) lon lat)
    let dfA := setCol dfA ("y") (List.zipWith (fun lo la => (convert_to_cartesian lo la 0).2.1) lon lat)
    let dfA := setCol dfA ("z") (List.zipWith (fun lo la => (convert_to_cartesian lo la 0).2.2) lon lat)
    let lon2 := getCol df2 (xy_cols2.getD 0 "")
    let lat2 := getCol df2 (xy_cols2.getD 1 "")
    let df2A := setCol df2 ("x") (List.zipWith (fun lo la => (convert_to_cartesian lo la 0).1) lon2 lat2)
    let df2A := setCol df2A ("y") (List.zipWith (fun lo la => (convert_to_cartesian lo la 0).2.1) lon2 lat2)
    let df2A := setCol df2A ("z") (List.zipWith (fun lo la => (convert_to_cartesian lo la 0).2.2) lon2 lat2)
    let xy_ser := colsValues dfA ["x", "y", "z"]
    let xy_ser2 := colsValues df2A ["x", "y", "z"]
    let nearest := find_nearest_facility xy_ser xy_ser2
    let nearest_ids := nearest.1.map (fun i => (getCol df2A id_col).getD i 0)
    let assigned_id_col := colPrefix ++ "_assigned_id"
    let dfB := setCol dfA assigned_id_col nearest_ids
    let dfB := setCol dfB (colPrefix ++ "_euclidean") nearest.2
    let res := calculate_minkowski_from_cartesian dfB df2A assigned_id_col id_col 1.54
      (colPrefix ++ "_minkowski")
    let res := dropCols res ["x", "y", "z"]
    (dfB, df2A, res)

/-! ## tasks/clustering.py -/

/-- The fields of a fitted sklearn KMeans model that the pipeline reads. -/
structure KMeansModel where
  labels_ : List ℝ
  cluster_centers_ : List (List ℝ)
  n_iter_ : ℕ
  max_iter : ℕ

/-- Embeds cluster_points.  The sklearn fitting routine is an opaque
parameter taking (points, n_clusters, init); the function extracts the
coordinate matrices, fits, writes labels and centroid columns into the
two frames, and returns the convergence flag n_iter_ < max_iter. -/
def cluster_points (kmeans_fit : List (List ℝ) → ℕ → List (List ℝ) → KMeansModel)
    (df_points df_centers : DF) (xy_cols : List String)
    (cluster_col : Option String) (center_xy_cols : Option (List String)) :
    DF × DF × Bool :=
  let ccol := cluster_col.getD ("cluster")
  let cxy := center_xy_cols.getD [ccol ++ "_lon", ccol ++ "_lat"]
  let points := colsValues df_points xy_cols
  let centers := colsValues df_centers xy_cols
  let n_clusters := centers.length
  let kmeans_model := kmeans_fit points n_clusters centers
  let df_points2 := setCol df_points ccol kmeans_model.labels_
  let df_centers2 := setCol df_centers (cxy.getD 0 "")
    (kmeans_model.cluster_centers_.map (fun r => r.getD 0 0))
  let df_centers2 := setCol df_centers2 (cxy.getD 1 "")
    (kmeans_model.cluster_centers_.map (fun r => r.getD 1 0))
  (df_points2, df_centers2, decide (kmeans_model.n_iter_ < kmeans_model.max_iter))

/-- Embeds ClusteredHouseholds._calc_counts at the grouping-key level:
each clustered household row contributes its group key (the values of the
admin columns plus the cluster id column); groupby yields, per distinct
key, the household count and the small flag counts < threshold. -/
def calc_counts {K : Type} [DecidableEq K] (cluster_keys : List K)
    (threshold_households : ℕ) : List (K × ℕ × Bool) :=
  cluster_keys.dedup.map
    (fun k => (k, cluster_keys.count k, decide (cluster_keys.count k < threshold_households)))

/-! ## tasks/placement.py -/

/-- The per-group branch of place_facilities: k-means centroids when the
group has at least 3 points, the raw points otherwise. -/
def place_group (kmeans_fit : List (List ℝ) → ℕ → KMeansModel) (n_facilities : ℕ)
    (X : List (List ℝ)) : List (List ℝ) :=
  if 3 ≤ X.length then (kmeans_fit X n_facilities).cluster_centers_ else X

/-- Distinct group keys in order of first appearance (pandas groupby keys). -/
def groupKeys {K : Type} [DecidableEq K] (rows : List (K × List ℝ)) : List K :=
  (rows.map Prod.fst).dedup

/-- The coordinate rows of one group. -/
def groupPoints {K : Type} [DecidableEq K] (rows : List (K × List ℝ)) (k : K) :
    List (List ℝ) :=
  (rows.filter (fun r => decide (r.1 = k))).map Prod.snd

/-- Embeds the grouping loop of place_facilities: households grouped by
(admin path, cluster) keys, each group passed through place_group. -/
def place_facilities {K : Type} [DecidableEq K]
    (kmeans_fit : List (List ℝ) → ℕ → KMeansModel) (n_facilities : ℕ)
    (rows : List (K × List ℝ)) : List (K × List (List ℝ)) :=
  (groupKeys rows).map (fun k => (k, place_group kmeans_fit n_facilities (groupPoints rows k)))

/-! ## data/inputs.py -/

/-- Filesystem state: a map from paths to file contents. -/
def FS := String → Option String

/-- Write a file (create or overwrite). -/
def writeFile (fs : FS) (p content : String) : FS :=
  fun q => if q = p then some content else fs q

/-- Embeds DataInputs.prepare_households.  If the configured households
file exists the path is returned with no further work; otherwise an empty
sentinel is written, the shapefile and buildings file are read, the
buildings are processed (opaque parameter) and the result written. -/
def prepare_households (fs : FS) (hh_file buildings_file shapes_file : String)
    (process_buildings : String → String → String) : FS × String :=
  match fs hh_file with
  | some _ => (fs, hh_file)
  | none =>
    let fs1 := writeFile fs hh_file ""
    let gdf := (fs1 shapes_file).getD ""
    let df_xy := (fs1 buildings_file).getD ""
    let out := process_buildings gdf df_xy
    let fs2 := writeFile fs1 hh_file out
    (fs2, hh_file)

/-- Embeds utils/spatial.py join_xy_shapes: rows with valid coordinates
are kept (xy_to_gdf dropna), then a geopandas sjoin under a predicate
emits one output row per (point, matching polygon) pair, in point order. -/
def join_xy_shapes {P B : Type} (within : P → B → Bool) (valid : P → Bool)
    (df : List P) (gdf : List B) : List (P × B) :=
  (df.filter valid).flatMap
    (fun pt => (gdf.filter (fun g => within pt g)).map (fun g => (pt, g)))

/-- Embeds process_google_buildings: the building points are processed in
chunks of 1,000,000 rows, with a cancellation check before each chunk;
each chunk is spatially joined to the shapes and the results concatenated;
the row-count assertion aborts when violated; finally null rows are
dropped and the output sorted. -/
def process_google_buildings {P B : Type} (within : P → B → Bool) (valid : P → Bool)
    (notNull : P × B → Bool) (sortLe : P × B → P × B → Bool) (stop_fn : ℕ → Bool)
    (df_xy : List P) (gdf_shapes : List B) : Except String (List (P × B)) :=
  let point_count := df_xy.length
  let chunk_size := 1000000
  let chunk_count := point_count / chunk_size
  let folded := (List.range (chunk_count + 1)).foldlM
    (fun (acc : List (P × B)) p =>
      if stop_fn p then Except.error "stopped"
      else
        let start := p * chunk_size
        let stop := min ((p + 1) * chunk_size) point_count
        let chunk := (df_xy.drop start).take (stop - start)
        Except.ok (acc ++ join_xy_shapes within valid chunk gdf_shapes))
    ([] : List (P × B))
  match folded with
  | Except.error e => Except.error e
  | Except.ok df_hh =>
    if df_hh.length ≤ point_count then
      Except.ok ((df_hh.filter notNull).mergeSort sortLe)
    else Except.error "The number of households is too large."

/-! ## tasks/outlines.py -/

/-- The five result artifact kinds, as row tables. -/
@[ext]
structure ResultData (α : Type) where
  gdf_shapes : List (List α)
  df_clusters : List (List α)
  df_centers : List (List α)
  df_counts : List (List α)
  df_facilities : List (List α)

/-- sort_values by the full column list: lexicographic sort of the rows. -/
def sort_rows {α : Type} [LinearOrder α] (t : List (List α)) : List (List α) :=
  t.mergeSort (fun r s => decide (r ≤ s))

/-- Embeds merge_result_data: concatenate each artifact kind across the
supplied per-location results and sort it by its full column list. -/
def merge_result_data {α : Type} [LinearOrder α] (results : List (ResultData α)) :
    ResultData α :=
  { gdf_shapes := sort_rows (results.flatMap ResultData.gdf_shapes)
    df_clusters := sort_rows (results.flatMap ResultData.df_clusters)
    df_centers := sort_rows (results.flatMap ResultData.df_centers)
    df_counts := sort_rows (results.flatMap ResultData.df_counts)
    df_facilities := sort_rows (results.flatMap ResultData.df_facilities) }

/-! ## Auxiliary predicates and concrete test fixtures -/

/-- A merged artifact is a sorted row-for-row union of a concatenation. -/
def sorted_union {α : Type} [LinearOrder α] (merged concatenated : List (List α)) : Prop :=
  merged.Perm concatenated ∧ merged.Sorted (· ≤ ·)

/-- Mocked fitting routine reporting an iteration count at the budget. -/
def fit_at_budget : List (List ℝ) → ℕ → List (List ℝ) → KMeansModel :=
  fun _ _ _ => ⟨[], [], 300, 300⟩

/-- Mocked fitting routine reporting an iteration count one below the budget. -/
def fit_below_budget : List (List ℝ) → ℕ → List (List ℝ) → KMeansModel :=
  fun _ _ _ => ⟨[], [], 299, 300⟩

/-- Mocked placement fitting routine with a fixed centroid list. -/
def fit_placement : List (List ℝ) → ℕ → KMeansModel :=
  fun _ _ => ⟨[], [[9, 9]], 1, 300⟩

/-- Clustered households fixture: one group of 2 points, one of 3 points. -/
def rows_fixture : List (ℕ × List ℝ) :=
  [(0, [1, 2]), (0, [3, 4]), (1, [0, 0]), (1, [0, 1]), (1, [1, 0])]

/-- Filesystem fixture with an existing non-empty households file. -/
def fs_fixture : FS :=
  fun p => if p = "households.csv" then some "data" else none

/-- Single-location result fixture. -/
def result_fixture : ResultData ℚ :=
  ⟨[[1]], [[2]], [[3]], [[4]], [[5]]⟩

/-! ## Theorems -/

/-- C9: convert_to_cartesian maps geodetic degrees to Earth-centered
Cartesian meters on a sphere of radius 6378137 m via
x = (R+elev) cos(lat) cos(lon), y = (R+elev) cos(lat) sin(lon),
z = (R+elev) sin(lat) (angles converted to radians); at the reference
inputs it returns exactly (6378137, 0, 0) and (0, 6378637, 0), which is
within every positive relative tolerance. -/
theorem C9_convert_to_cartesian_spec :
    (∀ lon lat elevation : ℝ, convert_to_cartesian lon lat elevation =
      ((6378137 + elevation) * Real.cos (lat * (Real.pi / 180)) * Real.cos (lon * (Real.pi / 180)),
       (6378137 + elevation) * Real.cos (lat * (Real.pi / 180)) * Real.sin (lon * (Real.pi / 180)),
       (6378137 + elevation) * Real.sin (lat * (Real.pi / 180)))) ∧
    convert_to_cartesian 0 0 0 = (6378137, 0, 0) ∧
    convert_to_cartesian 90 0 500 = (0, 6378637, 0) := by
  refine ⟨fun lon lat elevation => ?_, ?_, ?_⟩
  · simp only [convert_to_cartesian]
    norm_num
  · simp only [convert_to_cartesian]
    norm_num
  · have h90 : (90 : ℝ) * (Real.pi / 180) = Real.pi / 2 := by ring
    simp only [convert_to_cartesian, h90]
    norm_num [Real.cos_pi_div_two, Real.sin_pi_div_two]

/-- C6: calculate_distance_df with an empty locations or facilities table
is a passthrough: the locations frame is returned unchanged, no columns
are added to either input, and no error is raised. -/
theorem C6_calculate_distance_df_empty (df : DF) (xy_cols : List String)
    (df2 : DF) (xy_cols2 : List String) (colPrefix id_col : String)
    (h : nRows df = 0 ∨ nRows df2 = 0) :
    calculate_distance_df df xy_cols df2 xy_cols2 colPrefix id_col = (df, df2, df) := by
  unfold calculate_distance_df
  rw [if_pos h]

/-- Witness for C6 at concrete empty locations input. -/
theorem C6_calculate_distance_df_empty_witness :
    calculate_distance_df [] ["lon", "lat"]
      [("lon", [1]), ("lat", [2]), ("facility_id", [5])] ["lon", "lat"] "hh" "facility_id" =
      ([], [("lon", [1]), ("lat", [2]), ("facility_id", [5])], []) :=
  C6_calculate_distance_df_empty [] ["lon", "lat"]
    [("lon", [1]), ("lat", [2]), ("facility_id", [5])] ["lon", "lat"] "hh" "facility_id"
    (Or.inl rfl)

/-- C7: prepare_households is idempotent by file presence: when the
configured households file already exists (in particular when it is
non-empty), the same path is returned, the filesystem state is untouched
(no sentinel write, no output write), and the result does not depend on
the buildings-processing computation at all. -/
theorem C7_prepare_households_idempotent (fs : FS) (hh_file buildings_file shapes_file : String)
    (process_buildings : String → String → String) (c : String)
    (hc : fs hh_file = some c) (hne : c ≠ "") :
    prepare_households fs hh_file buildings_file shapes_file process_buildings = (fs, hh_file) := by
  unfold prepare_households
  rw [hc]

/-- Witness for C7 at a concrete filesystem with a non-empty households file. -/
theorem C7_prepare_households_idempotent_witness :
    prepare_households fs_fixture "households.csv" "bldgs.feather" "shapes.shp"
      (fun _ _ => "recomputed") = (fs_fixture, "households.csv") :=
  C7_prepare_households_idempotent fs_fixture "households.csv" "bldgs.feather" "shapes.shp"
    (fun _ _ => "recomputed") "data" rfl (by decide)

/-- C1: the convergence flag returned by cluster_points is true iff the
fitted model reports an iteration count strictly below its maximum
iteration budget; a count equal to the budget yields false and a count
one below the budget yields true. -/
theorem C1_cluster_points_convergence
    (kmeans_fit : List (List ℝ) → ℕ → List (List ℝ) → KMeansModel)
    (df_points df_centers : DF) (xy_cols : List String)
    (cluster_col : Option String) (center_xy_cols : Option (List String)) :
    ((cluster_points kmeans_fit df_points df_centers xy_cols cluster_col center_xy_cols).2.2 = true ↔
      (kmeans_fit (colsValues df_points xy_cols) (colsValues df_centers xy_cols).length
        (colsValues df_centers xy_cols)).n_iter_ <
      (kmeans_fit (colsValues df_points xy_cols) (colsValues df_centers xy_cols).length
        (colsValues df_centers xy_cols)).max_iter) ∧
    ((kmeans_fit (colsValues df_points xy_cols) (colsValues df_centers xy_cols).length
        (colsValues df_centers xy_cols)).n_iter_ =
      (kmeans_fit (colsValues df_points xy_cols) (colsValues df_centers xy_cols).length
        (colsValues df_centers xy_cols)).max_iter →
      (cluster_points kmeans_fit df_points df_centers xy_cols cluster_col center_xy_cols).2.2 = false) ∧
    ((kmeans_fit (colsValues df_points xy_cols) (colsValues df_centers xy_cols).length
        (colsValues df_centers xy_cols)).n_iter_ + 1 =
      (kmeans_fit (colsValues df_points xy_cols) (colsValues df_centers xy_cols).length
        (colsValues df_centers xy_cols)).max_iter →
      (cluster_points kmeans_fit df_points df_centers xy_cols cluster_col center_xy_cols).2.2 = true) := by
  refine ⟨by simp [cluster_points], fun h => ?_, fun h => ?_⟩
  · simp [cluster_points, h]
  · simp only [cluster_points, decide_eq_true_eq]
    omega

/-- Witness for C1 with mocked fitting routines at and one below the budget. -/
theorem C1_cluster_points_convergence_witness :
    (cluster_points fit_at_budget [] [] [] none none).2.2 = false ∧
    (cluster_points fit_below_budget [] [] [] none none).2.2 = true :=
  ⟨(C1_cluster_points_convergence fit_at_budget [] [] [] none none).2.1 rfl,
   (C1_cluster_points_convergence fit_below_budget [] [] [] none none).2.2 rfl⟩

/-- C3: in the cluster-counts table, the small flag of an entry is true
iff its household count is strictly below the configured threshold; the
count is the number of clustered household rows carrying that group key,
a count equal to the threshold is not small, and a count of threshold
minus one is small. -/
theorem C3_calc_counts_small_flag {K : Type} [DecidableEq K]
    (cluster_keys : List K) (threshold_households : ℕ) (k : K) (c : ℕ) (b : Bool)
    (hmem : (k, c, b) ∈ calc_counts cluster_keys threshold_households) :
    (b = true ↔ c < threshold_households) ∧
    c = cluster_keys.count k ∧
    (c = threshold_households → b = false) ∧
    (c + 1 = threshold_households → b = true) := by
  rcases List.mem_map.1 hmem with ⟨a, _, hEq⟩
  obtain ⟨h1, h2, h3⟩ : a = k ∧ cluster_keys.count a = c ∧
      decide (cluster_keys.count a < threshold_households) = b := by
    simpa [Prod.ext_iff] using hEq
  subst h1
  subst h2
  subst h3
  refine ⟨by simp, rfl, fun h => by simp [h], fun h => by simp; omega⟩

/-- Witness for C3 at the threshold boundary: threshold 2, one key with
count 2 (not small) and one with count 1 (small). -/
theorem C3_calc_counts_small_flag_witness :
    (((false = true ↔ 2 < 2) ∧ 2 = ([0, 0, 1] : List ℕ).count 0 ∧
      (2 = 2 → false = false) ∧ (2 + 1 = 2 → false = true)) ∧
     ((true = true ↔ 1 < 2) ∧ 1 = ([0, 0, 1] : List ℕ).count 1 ∧
      (1 = 2 → true = false) ∧ (1 + 1 = 2 → true = true))) :=
  ⟨C3_calc_counts_small_flag [0, 0, 1] 2 0 2 false (by decide),
   C3_calc_counts_small_flag [0, 0, 1] 2 1 1 true (by decide)⟩

/-- C4: in place_facilities, a group of household points with at least 3
points is replaced by the centroids of a k-means fit with the configured
number of facilities, and a group with fewer than 3 points is returned
unchanged as the facilities (its result does not depend on the fitting
routine, so no k-means is invoked). -/
theorem C4_place_facilities_degenerate {K : Type} [DecidableEq K]
    (kmeans_fit : List (List ℝ) → ℕ → KMeansModel) (n_facilities : ℕ)
    (rows : List (K × List ℝ)) (k : K) (pts : List (List ℝ)) :
    ((k, pts) ∈ place_facilities kmeans_fit n_facilities rows →
      (3 ≤ (groupPoints rows k).length →
        pts = (kmeans_fit (groupPoints rows k) n_facilities).cluster_centers_) ∧
      ((groupPoints rows k).length < 3 → pts = groupPoints rows k)) ∧
    (k ∈ groupKeys rows →
      (k, place_group kmeans_fit n_facilities (groupPoints rows k)) ∈
        place_facilities kmeans_fit n_facilities rows) := by
  constructor
  · intro hmem
    rcases List.mem_map.1 hmem with ⟨a, _, hEq⟩
    obtain ⟨h1, h2⟩ : a = k ∧ place_group kmeans_fit n_facilities (groupPoints rows a) = pts := by
      simpa [Prod.ext_iff] using hEq
    subst h1
    subst h2
    constructor
    · intro h3
      simp [place_group, h3]
    · intro h3
      rw [place_group, if_neg (by omega)]
  · intro hk
    exact List.mem_map.2 ⟨k, hk, rfl⟩

/-- Witness for C4: in the fixture, the 2-point group comes back as its
raw points and the 3-point group is present with the k-means centroids. -/
theorem C4_place_facilities_degenerate_witness :
    place_group fit_placement 5 (groupPoints rows_fixture 0) = groupPoints rows_fixture 0 ∧
    (1, place_group fit_placement 5 (groupPoints rows_fixture 1)) ∈
      place_facilities fit_placement 5 rows_fixture :=
  ⟨((C4_place_facilities_degenerate fit_placement 5 rows_fixture 0
      (place_group fit_placement 5 (groupPoints rows_fixture 0))).1
      ((C4_place_facilities_degenerate fit_placement 5 rows_fixture 0
        (place_group fit_placement 5 (groupPoints rows_fixture 0))).2 (by decide))).2 (by decide),
   (C4_place_facilities_degenerate fit_placement 5 rows_fixture 1
      (place_group fit_placement 5 (groupPoints rows_fixture 1))).2 (by decide)⟩

/-! ### Minimum and argmin lemmas for find_nearest_facility -/

theorem listMin_singleton (x : ℝ) : listMin [x] = x := rfl

theorem listMin_cons_cons (x y : ℝ) (ys : List ℝ) :
    listMin (x :: y :: ys) = min x (listMin (y :: ys)) := rfl

theorem argminIdx_singleton (x : ℝ) : argminIdx [x] = 0 := rfl

theorem argminIdx_cons_cons (x y : ℝ) (ys : List ℝ) :
    argminIdx (x :: y :: ys) =
      if x ≤ listMin (y :: ys) then 0 else argminIdx (y :: ys) + 1 := rfl

theorem listMin_le (x : ℝ) (xs : List ℝ) : ∀ a ∈ x :: xs, listMin (x :: xs) ≤ a := by
  induction xs generalizing x with
  | nil =>
    intro a ha
    rw [List.mem_singleton.1 ha, listMin_singleton]
  | cons y ys ih =>
    intro a ha
    rw [listMin_cons_cons]
    rcases List.mem_cons.1 ha with h | h
    · rw [h]
      exact min_le_left _ _
    · exact le_trans (min_le_right _ _) (ih y a h)

theorem argminIdx_lt_length (x : ℝ) (xs : List ℝ) :
    argminIdx (x :: xs) < (x :: xs).length := by
  induction xs generalizing x with
  | nil => simp [argminIdx_singleton]
  | cons y ys ih =>
    rw [argminIdx_cons_cons]
    by_cases h : x ≤ listMin (y :: ys)
    · simp [h]
    · rw [if_neg h]
      have := ih y
      simp only [List.length_cons] at this ⊢
      omega

theorem getD_argminIdx (x : ℝ) (xs : List ℝ) :
    (x :: xs).getD (argminIdx (x :: xs)) 0 = listMin (x :: xs) := by
  induction xs generalizing x with
  | nil => simp [argminIdx_singleton, listMin_singleton]
  | cons y ys ih =>
    rw [argminIdx_cons_cons, listMin_cons_cons]
    by_cases h : x ≤ listMin (y :: ys)
    · rw [if_pos h, min_eq_left h]
      rfl
    · rw [if_neg h, min_eq_right (le_of_not_le h), List.getD_cons_succ]
      exact ih y

theorem listMin_lt_of_lt_argminIdx (x : ℝ) (xs : List ℝ) :
    ∀ j < argminIdx (x :: xs), listMin (x :: xs) < (x :: xs).getD j 0 := by
  induction xs generalizing x with
  | nil =>
    intro j hj
    rw [argminIdx_singleton] at hj
    omega
  | cons y ys ih =>
    intro j hj
    rw [argminIdx_cons_cons] at hj
    by_cases h : x ≤ listMin (y :: ys)
    · rw [if_pos h] at hj
      omega
    · rw [if_neg h] at hj
      have hm : listMin (y :: ys) ≤ x := le_of_not_le h
      rw [listMin_cons_cons, min_eq_right hm]
      cases j with
      | zero => exact not_le.1 h
      | succ j =>
        rw [List.getD_cons_succ]
        exact ih y j (by omega)

/-- getD through a map, at an in-bounds index. -/
theorem getD_map_of_lt {α β : Type} (g : α → β) (l : List α) (i : ℕ)
    (hi : i < l.length) (d : β) (dd : α) : (l.map g).getD i d = g (l.getD i dd) := by
  rw [List.getD_eq_getElem _ _ (show i < (l.map g).length by simpa using hi),
    List.getD_eq_getElem _ _ hi, List.getElem_map]

/-- Euclidean distance between two points in the plane. -/
theorem euclid_pair (a b c d : ℝ) :
    euclid [a, b] [c, d] = Real.sqrt ((a - c) ^ 2 + (b - d) ^ 2) := by
  simp [euclid]

/-- C5: find_nearest_facility returns, for each in-bounds location index,
a valid facility index whose Euclidean distance to the location is the
reported distance, that distance is minimal over all facilities, and
every facility with a smaller index is strictly farther (first-minimum
tie-breaking); together with the reference evaluation on points
(0,0),(1,1),(2,2) against facilities (1,1),(2,2),(3,3). -/
theorem C5_find_nearest_facility_correct (pts facs : List (List ℝ)) (hf : facs ≠ [])
    (i : ℕ) (hi : i < pts.length) :
    ((find_nearest_facility pts facs).1.getD i 0 < facs.length ∧
     (find_nearest_facility pts facs).2.getD i 0 =
       euclid (pts.getD i []) (facs.getD ((find_nearest_facility pts facs).1.getD i 0) []) ∧
     (∀ j < facs.length,
       (find_nearest_facility pts facs).2.getD i 0 ≤ euclid (pts.getD i []) (facs.getD j [])) ∧
     (∀ j < (find_nearest_facility pts facs).1.getD i 0,
       (find_nearest_facility pts facs).2.getD i 0 < euclid (pts.getD i []) (facs.getD j []))) ∧
    find_nearest_facility [[0, 0], [1, 1], [2, 2]] [[1, 1], [2, 2], [3, 3]] =
      ([0, 0, 1], [Real.sqrt 2, 0, 0]) := by
  constructor
  · rcases facs with _ | ⟨f, fs⟩
    · exact absurd rfl hf
    set p := pts.getD i []
    have hfst : (find_nearest_facility pts (f :: fs)).1.getD i 0 =
        argminIdx (euclid p f :: fs.map (fun g => euclid p g)) := by
      show ((pts.map fun q => argminIdx ((f :: fs).map fun g => euclid q g)).getD i 0) = _
      rw [getD_map_of_lt _ pts i hi 0 []]
      rfl
    have hsnd : (find_nearest_facility pts (f :: fs)).2.getD i 0 =
        listMin (euclid p f :: fs.map (fun g => euclid p g)) := by
      show ((pts.map fun q => listMin ((f :: fs).map fun g => euclid q g)).getD i 0) = _
      rw [getD_map_of_lt _ pts i hi 0 []]
      rfl
    have hlen : (euclid p f :: fs.map (fun g => euclid p g)).length = (f :: fs).length := by
      simp
    have hgetd : ∀ j < (f :: fs).length,
        (euclid p f :: fs.map (fun g => euclid p g)).getD j 0 =
          euclid p ((f :: fs).getD j []) := by
      intro j hj
      have : (euclid p f :: fs.map (fun g => euclid p g)) =
          (f :: fs).map (fun g => euclid p g) := by simp
      rw [this, getD_map_of_lt _ _ j hj 0 []]
    refine ⟨?_, ?_, ?_, ?_⟩
    · rw [hfst]
      have := argminIdx_lt_length (euclid p f) (fs.map (fun g => euclid p g))
      simpa using this
    · rw [hfst, hsnd, ← getD_argminIdx (euclid p f) (fs.map (fun g => euclid p g))]
      rw [hgetd _ (by simpa using argminIdx_lt_length (euclid p f) (fs.map (fun g => euclid p g)))]
    · intro j hj
      rw [hsnd, ← hgetd j hj]
      apply listMin_le
      have hj2 : j < (euclid p f :: fs.map (fun g => euclid p g)).length := by
        rw [hlen]; exact hj
      rw [List.getD_eq_getElem _ _ hj2]
      exact List.getElem_mem hj2
    · intro j hj
      rw [hfst] at hj
      rw [hsnd, ← hgetd j (by
        have := argminIdx_lt_length (euclid p f) (fs.map (fun g => euclid p g))
        rw [hlen] at this
        omega)]
      exact listMin_lt_of_lt_argminIdx _ _ j hj
  · have s2nn : (0 : ℝ) ≤ Real.sqrt 2 := Real.sqrt_nonneg 2
    have s2pos : (0 : ℝ) < Real.sqrt 2 := Real.sqrt_pos.mpr (by norm_num)
    have s28 : Real.sqrt 2 ≤ Real.sqrt 8 := Real.sqrt_le_sqrt (by norm_num)
    have s818 : Real.sqrt 8 ≤ Real.sqrt 18 := Real.sqrt_le_sqrt (by norm_num)
    have e11 : euclid [(0 : ℝ), 0] [1, 1] = Real.sqrt 2 := by rw [euclid_pair]; norm_num
    have e12 : euclid [(0 : ℝ), 0] [2, 2] = Real.sqrt 8 := by rw [euclid_pair]; norm_num
    have e13 : euclid [(0 : ℝ), 0] [3, 3] = Real.sqrt 18 := by rw [euclid_pair]; norm_num
    have e21 : euclid [(1 : ℝ), 1] [1, 1] = 0 := by rw [euclid_pair]; norm_num
    have e22 : euclid [(1 : ℝ), 1] [2, 2] = Real.sqrt 2 := by rw [euclid_pair]; norm_num
    have e23 : euclid [(1 : ℝ), 1] [3, 3] = Real.sqrt 8 := by rw [euclid_pair]; norm_num
    have e31 : euclid [(2 : ℝ), 2] [1, 1] = Real.sqrt 2 := by rw [euclid_pair]; norm_num
    have e32 : euclid [(2 : ℝ), 2] [2, 2] = 0 := by rw [euclid_pair]; norm_num
    have e33 : euclid [(2 : ℝ), 2] [3, 3] = Real.sqrt 2 := by rw [euclid_pair]; norm_num
    have m88 : listMin [Real.sqrt 8, Real.sqrt 18] = Real.sqrt 8 := by
      rw [listMin_cons_cons, listMin_singleton, min_eq_left s818]
    have a1 : argminIdx [Real.sqrt 2, Real.sqrt 8, Real.sqrt 18] = 0 := by
      rw [argminIdx_cons_cons, m88, if_pos s28]
    have v1 : listMin [Real.sqrt 2, Real.sqrt 8, Real.sqrt 18] = Real.sqrt 2 := by
      rw [listMin_cons_cons, m88, min_eq_left s28]
    have m28 : listMin [Real.sqrt 2, Real.sqrt 8] = Real.sqrt 2 := by
      rw [listMin_cons_cons, listMin_singleton, min_eq_left s28]
    have a2 : argminIdx [(0 : ℝ), Real.sqrt 2, Real.sqrt 8] = 0 := by
      rw [argminIdx_cons_cons, m28, if_pos s2nn]
    have v2 : listMin [(0 : ℝ), Real.sqrt 2, Real.sqrt 8] = 0 := by
      rw [listMin_cons_cons, m28, min_eq_left s2nn]
    have m02 : listMin [(0 : ℝ), Real.sqrt 2] = 0 := by
      rw [listMin_cons_cons, listMin_singleton, min_eq_left s2nn]
    have a3 : argminIdx [Real.sqrt 2, (0 : ℝ), Real.sqrt 2] = 1 := by
      rw [argminIdx_cons_cons, m02, if_neg (not_le.2 s2pos), argminIdx_cons_cons,
        listMin_singleton, if_pos s2nn]
    have v3 : listMin [Real.sqrt 2, (0 : ℝ), Real.sqrt 2] = 0 := by
      rw [listMin_cons_cons, m02, min_eq_right s2nn]
    simp only [find_nearest_facility, List.map_cons, List.map_nil, e11, e12, e13, e21, e22,
      e23, e31, e32, e33, a1, a2, a3, v1, v2, v3]

/-- Witness for C5 at the first reference point. -/
theorem C5_find_nearest_facility_correct_witness :
    (((find_nearest_facility [[0, 0], [1, 1], [2, 2]] [[1, 1], [2, 2], [3, 3]]).1.getD 0 0 <
        ([[1, 1], [2, 2], [3, 3]] : List (List ℝ)).length ∧
      (find_nearest_facility [[0, 0], [1, 1], [2, 2]] [[1, 1], [2, 2], [3, 3]]).2.getD 0 0 =
        euclid (([[0, 0], [1, 1], [2, 2]] : List (List ℝ)).getD 0 [])
          (([[1, 1], [2, 2], [3, 3]] : List (List ℝ)).getD
            ((find_nearest_facility [[0, 0], [1, 1], [2, 2]] [[1, 1], [2, 2], [3, 3]]).1.getD 0 0) []) ∧
      (∀ j < ([[1, 1], [2, 2], [3, 3]] : List (List ℝ)).length,
        (find_nearest_facility [[0, 0], [1, 1], [2, 2]] [[1, 1], [2, 2], [3, 3]]).2.getD 0 0 ≤
          euclid (([[0, 0], [1, 1], [2, 2]] : List (List ℝ)).getD 0 [])
            (([[1, 1], [2, 2], [3, 3]] : List (List ℝ)).getD j [])) ∧
      (∀ j < (find_nearest_facility [[0, 0], [1, 1], [2, 2]] [[1, 1], [2, 2], [3, 3]]).1.getD 0 0,
        (find_nearest_facility [[0, 0], [1, 1], [2, 2]] [[1, 1], [2, 2], [3, 3]]).2.getD 0 0 <
          euclid (([[0, 0], [1, 1], [2, 2]] : List (List ℝ)).getD 0 [])
            (([[1, 1], [2, 2], [3, 3]] : List (List ℝ)).getD j []))) ∧
     find_nearest_facility [[0, 0], [1, 1], [2, 2]] [[1, 1], [2, 2], [3, 3]] =
       ([0, 0, 1], [Real.sqrt 2, 0, 0])) :=
  C5_find_nearest_facility_correct [[0, 0], [1, 1], [2, 2]] [[1, 1], [2, 2], [3, 3]]
    (by simp) 0 (by simp)

/-! ### Lemmas for process_google_buildings and merge_result_data -/

theorem flatMap_length_le {α β : Type} (l : List α) (f : α → List β)
    (h : ∀ a ∈ l, (f a).length ≤ 1) : (l.flatMap f).length ≤ l.length := by
  induction l with
  | nil => simp
  | cons x xs ih =>
    simp only [List.flatMap_cons, List.length_append, List.length_cons]
    have h1 := h x (List.mem_cons_self x xs)
    have h2 := ih (fun a ha => h a (List.mem_cons_of_mem _ ha))
    omega

/-- C2: every households table returned by process_google_buildings has
at most as many rows as the input building-point table (the row-count
assertion aborts the run otherwise), and a spatial join under a predicate
matching each valid point to at most one polygon only filters and never
duplicates source points. -/
theorem C2_process_google_buildings_row_bound {P B : Type}
    (within : P → B → Bool) (valid : P → Bool) (notNull : P × B → Bool)
    (sortLe : P × B → P × B → Bool) (stop_fn : ℕ → Bool)
    (df_xy : List P) (gdf_shapes : List B) (out : List (P × B)) :
    (process_google_buildings within valid notNull sortLe stop_fn df_xy gdf_shapes =
        Except.ok out → out.length ≤ df_xy.length) ∧
    (∀ pts : List P, (∀ p, valid p = true → gdf_shapes.countP (fun g => within p g) ≤ 1) →
      (join_xy_shapes within valid pts gdf_shapes).length ≤ pts.length) := by
  constructor
  · intro h
    simp only [process_google_buildings] at h
    split at h
    · exact absurd h (by simp)
    · split at h
      · rename_i df_hh hok hle
        obtain rfl : (df_hh.filter notNull).mergeSort sortLe = out := by
          simpa using h
        rw [List.length_mergeSort]
        exact le_trans (List.length_filter_le _ _) hle
      · exact absurd h (by simp)
  · intro pts hA
    unfold join_xy_shapes
    refine le_trans (flatMap_length_le _ _ ?_) (List.length_filter_le _ _)
    intro a ha
    have hv : valid a = true := List.of_mem_filter ha
    have hcount := hA a hv
    rw [List.length_map, ← List.countP_eq_length_filter]
    exact hcount

/-- Witness for C2: a 2-point, 1-polygon run that returns one row, and
the join bound at the same input. -/
theorem C2_process_google_buildings_row_bound_witness :
    (([((1 : ℕ), (1 : ℕ))] : List (ℕ × ℕ)).length ≤ ([1, 2] : List ℕ).length) ∧
    (join_xy_shapes (fun p g => decide (p = g)) (fun _ => true) [1, 2] [1]).length ≤
      ([1, 2] : List ℕ).length :=
  ⟨(C2_process_google_buildings_row_bound (fun p g => decide (p = g)) (fun _ => true)
      (fun _ => true) (fun _ _ => true) (fun _ => false) [1, 2] [1] [(1, 1)]).1
      (by
        unfold process_google_buildings join_xy_shapes
        norm_num [List.range_succ, List.mergeSort_singleton]),
   (C2_process_google_buildings_row_bound (fun p g => decide (p = g)) (fun _ => true)
      (fun _ => true) (fun _ _ => true) (fun _ => false) [1, 2] [1] [(1, 1)]).2
      [1, 2] (fun p _ => List.countP_le_length (fun g => decide (p = g)))⟩

theorem sort_rows_perm {α : Type} [LinearOrder α] (t : List (List α)) :
    List.Perm (sort_rows t) t :=
  List.mergeSort_perm t _

theorem sort_rows_sorted {α : Type} [LinearOrder α] (t : List (List α)) :
    (sort_rows t).Sorted (· ≤ ·) := by
  have h := @List.sorted_mergeSort (List α) (fun r s => decide (r ≤ s))
    (fun a b c h1 h2 => by
      simp only [decide_eq_true_eq] at h1 h2 ⊢
      exact le_trans h1 h2)
    (fun a b => by
      simp only [Bool.or_eq_true, decide_eq_true_eq]
      exact le_total a b)
    t
  refine List.Pairwise.imp ?_ h
  intro a b hab
  simpa using hab

theorem sort_rows_congr {α : Type} [LinearOrder α] {t t' : List (List α)}
    (h : List.Perm t t') : sort_rows t = sort_rows t' :=
  List.eq_of_perm_of_sorted ((sort_rows_perm t).trans (h.trans (sort_rows_perm t').symm))
    (sort_rows_sorted t) (sort_rows_sorted t')

theorem flatMap_perm_of_perm {α β : Type} {l l' : List α} (f : α → List β)
    (h : List.Perm l l') : List.Perm (l.flatMap f) (l'.flatMap f) := by
  rw [List.flatMap_def, List.flatMap_def]
  exact (h.map f).flatten

/-- C8: merging a non-empty collection of per-location results yields,
for each of the five artifact kinds, a sorted row-for-row union of the
per-location tables (a permutation of their concatenation, so no row is
duplicated or dropped, sorted by the full column list), and the merged
output is identical for any reordering of the supplied results. -/
theorem C8_merge_result_data_deterministic {α : Type} [LinearOrder α]
    (results results' : List (ResultData α)) (hne : results ≠ [])
    (hperm : List.Perm results results') :
    (sorted_union (merge_result_data results).gdf_shapes
        (results.flatMap ResultData.gdf_shapes) ∧
     sorted_union (merge_result_data results).df_clusters
        (results.flatMap ResultData.df_clusters) ∧
     sorted_union (merge_result_data results).df_centers
        (results.flatMap ResultData.df_centers) ∧
     sorted_union (merge_result_data results).df_counts
        (results.flatMap ResultData.df_counts) ∧
     sorted_union (merge_result_data results).df_facilities
        (results.flatMap ResultData.df_facilities)) ∧
    merge_result_data results' = merge_result_data results := by
  constructor
  · exact ⟨⟨sort_rows_perm _, sort_rows_sorted _⟩, ⟨sort_rows_perm _, sort_rows_sorted _⟩,
      ⟨sort_rows_perm _, sort_rows_sorted _⟩, ⟨sort_rows_perm _, sort_rows_sorted _⟩,
      ⟨sort_rows_perm _, sort_rows_sorted _⟩⟩
  · apply ResultData.ext <;>
      exact sort_rows_congr (flatMap_perm_of_perm _ hperm.symm)

/-- Witness for C8 at a concrete single-location result collection. -/
theorem C8_merge_result_data_deterministic_witness :
    ((sorted_union (merge_result_data [result_fixture]).gdf_shapes
        ([result_fixture].flatMap ResultData.gdf_shapes) ∧
      sorted_union (merge_result_data [result_fixture]).df_clusters
        ([result_fixture].flatMap ResultData.df_clusters) ∧
      sorted_union (merge_result_data [result_fixture]).df_centers
        ([result_fixture].flatMap ResultData.df_centers) ∧
      sorted_union (merge_result_data [result_fixture]).df_counts
        ([result_fixture].flatMap ResultData.df_counts) ∧
      sorted_union (merge_result_data [result_fixture]).df_facilities
        ([result_fixture].flatMap ResultData.df_facilities)) ∧
     merge_result_data [result_fixture] = merge_result_data [result_fixture]) :=
  C8_merge_result_data_deterministic [result_fixture] [result_fixture]
    (by simp) (List.Perm.refl _)

/-! ### Column lemmas for calculate_distance_df -/

theorem colNames_append (df df' : DF) : colNames (df ++ df') = colNames df ++ colNames df' := by
  simp [colNames]

theorem setCol_fresh {df : DF} {c : String} {v : List ℝ} (h : c ∉ colNames df) :
    setCol df c v = df ++ [(c, v)] := by
  rw [setCol, if_neg h]

theorem colNames_setCol_fresh {df : DF} {c : String} {v : List ℝ} (h : c ∉ colNames df) :
    colNames (setCol df c v) = colNames df ++ [c] := by
  rw [setCol_fresh h, colNames_append]
  rfl

theorem getCol_append_single_ne {df : DF} {c c' : String} {v : List ℝ} (h : c' ≠ c) :
    getCol (df ++ [(c, v)]) c' = getCol df c' := by
  unfold getCol
  rw [List.find?_append]
  have hnone : List.find? (fun e => decide (e.1 = c')) [(c, v)] = none := by
    rw [List.find?_eq_none]
    intro x hx
    rw [List.mem_singleton.1 hx]
    simpa using fun hh => h hh.symm
  rw [hnone]
  cases df.find? (fun e => decide (e.1 = c')) <;> rfl

theorem getCol_setCol_fresh {df : DF} {c c' : String} {v : List ℝ}
    (hc : c ∉ colNames df) (h : c' ≠ c) : getCol (setCol df c v) c' = getCol df c' := by
  rw [setCol_fresh hc]
  exact getCol_append_single_ne h

theorem not_mem_colNames_dropCols {df : DF} {cs : List String} {c : String} (h : c ∈ cs) :
    c ∉ colNames (dropCols df cs) := by
  intro hmem
  simp only [colNames, dropCols, List.mem_map] at hmem
  obtain ⟨e, he, rfl⟩ := hmem
  exact of_decide_eq_true (List.mem_filter.1 he).2 h

theorem setCol_chain3 (df : DF) (n1 n2 n3 : String) (v1 v2 v3 : List ℝ)
    (h : ∀ c ∈ [n1, n2, n3], c ∉ colNames df)
    (hnd : ([n1, n2, n3] : List String).Nodup) :
    colNames (setCol (setCol (setCol df n1 v1) n2 v2) n3 v3) = colNames df ++ [n1, n2, n3] ∧
    ∀ c ∈ colNames df, getCol (setCol (setCol (setCol df n1 v1) n2 v2) n3 v3) c = getCol df c := by
  simp only [List.nodup_cons, List.mem_cons, List.mem_singleton, List.not_mem_nil, not_or,
    List.nodup_nil, and_true, not_false_eq_true] at hnd
  obtain ⟨⟨h12, h13⟩, h23⟩ := hnd
  have f1 : n1 ∉ colNames df := h n1 (by simp)
  have f2 : n2 ∉ colNames df := h n2 (by simp)
  have f3 : n3 ∉ colNames df := h n3 (by simp)
  have e1 : colNames (setCol df n1 v1) = colNames df ++ [n1] := colNames_setCol_fresh f1
  have m2 : n2 ∉ colNames (setCol df n1 v1) := by
    rw [e1]
    simp [List.mem_append, f2, Ne.symm h12]
  have e2 : colNames (setCol (setCol df n1 v1) n2 v2) = colNames df ++ [n1] ++ [n2] := by
    rw [colNames_setCol_fresh m2, e1]
  have m3 : n3 ∉ colNames (setCol (setCol df n1 v1) n2 v2) := by
    rw [e2]
    simp [List.mem_append, f3, Ne.symm h13, Ne.symm h23]
  constructor
  · rw [colNames_setCol_fresh m3, e2]
    simp
  · intro c hc
    have hc1 : c ≠ n1 := fun hh => f1 (hh ▸ hc)
    have hc2 : c ≠ n2 := fun hh => f2 (hh ▸ hc)
    have hc3 : c ≠ n3 := fun hh => f3 (hh ▸ hc)
    rw [getCol_setCol_fresh m3 hc3, getCol_setCol_fresh m2 hc2, getCol_setCol_fresh f1 hc1]

theorem setCol_chain5 (df : DF) (n1 n2 n3 n4 n5 : String) (v1 v2 v3 v4 v5 : List ℝ)
    (h : ∀ c ∈ [n1, n2, n3, n4, n5], c ∉ colNames df)
    (hnd : ([n1, n2, n3, n4, n5] : List String).Nodup) :
    colNames (setCol (setCol (setCol (setCol (setCol df n1 v1) n2 v2) n3 v3) n4 v4) n5 v5) =
      colNames df ++ [n1, n2, n3, n4, n5] ∧
    ∀ c ∈ colNames df,
      getCol (setCol (setCol (setCol (setCol (setCol df n1 v1) n2 v2) n3 v3) n4 v4) n5 v5) c =
        getCol df c := by
  simp only [List.nodup_cons, List.mem_cons, List.mem_singleton, List.not_mem_nil, not_or,
    List.nodup_nil, and_true, not_false_eq_true] at hnd
  obtain ⟨⟨h12, h13, h14, h15⟩, ⟨h23, h24, h25⟩, ⟨h34, h35⟩, h45⟩ := hnd
  have f1 : n1 ∉ colNames df := h n1 (by simp)
  have f2 : n2 ∉ colNames df := h n2 (by simp)
  have f3 : n3 ∉ colNames df := h n3 (by simp)
  have f4 : n4 ∉ colNames df := h n4 (by simp)
  have f5 : n5 ∉ colNames df := h n5 (by simp)
  have e1 : colNames (setCol df n1 v1) = colNames df ++ [n1] := colNames_setCol_fresh f1
  have m2 : n2 ∉ colNames (setCol df n1 v1) := by
    rw [e1]
    simp [List.mem_append, f2, Ne.symm h12]
  have e2 : colNames (setCol (setCol df n1 v1) n2 v2) = colNames df ++ [n1] ++ [n2] := by
    rw [colNames_setCol_fresh m2, e1]
  have m3 : n3 ∉ colNames (setCol (setCol df n1 v1) n2 v2) := by
    rw [e2]
    simp [List.mem_append, f3, Ne.symm h13, Ne.symm h23]
  have e3 : colNames (setCol (setCol (setCol df n1 v1) n2 v2) n3 v3) =
      colNames df ++ [n1] ++ [n2] ++ [n3] := by
    rw [colNames_setCol_fresh m3, e2]
  have m4 : n4 ∉ colNames (setCol (setCol (setCol df n1 v1) n2 v2) n3 v3) := by
    rw [e3]
    simp [List.mem_append, f4, Ne.symm h14, Ne.symm h24, Ne.symm h34]
  have e4 : colNames (setCol (setCol (setCol (setCol df n1 v1) n2 v2) n3 v3) n4 v4) =
      colNames df ++ [n1] ++ [n2] ++ [n3] ++ [n4] := by
    rw [colNames_setCol_fresh m4, e3]
  have m5 : n5 ∉ colNames (setCol (setCol (setCol (setCol df n1 v1) n2 v2) n3 v3) n4 v4) := by
    rw [e4]
    simp [List.mem_append, f5, Ne.symm h15, Ne.symm h25, Ne.symm h35, Ne.symm h45]
  constructor
  · rw [colNames_setCol_fresh m5, e4]
    simp
  · intro c hc
    have hc1 : c ≠ n1 := fun hh => f1 (hh ▸ hc)
    have hc2 : c ≠ n2 := fun hh => f2 (hh ▸ hc)
    have hc3 : c ≠ n3 := fun hh => f3 (hh ▸ hc)
    have hc4 : c ≠ n4 := fun hh => f4 (hh ▸ hc)
    have hc5 : c ≠ n5 := fun hh => f5 (hh ▸ hc)
    rw [getCol_setCol_fresh m5 hc5, getCol_setCol_fresh m4 hc4, getCol_setCol_fresh m3 hc3,
      getCol_setCol_fresh m2 hc2, getCol_setCol_fresh f1 hc1]

/-- C10: on non-empty inputs with fresh numeric-column names,
calculate_distance_df mutates both caller frames in place: the locations
frame ends with exactly the added x, y, z, assigned-id and euclidean
columns appended and every pre-existing column (all rows) unchanged; the
facilities frame ends with exactly x, y, z appended and every
pre-existing column unchanged; and x, y, z are dropped only from the
separately returned result frame, which carries none of them. -/
theorem C10_calculate_distance_df_frame_effect (df : DF) (xy_cols : List String)
    (df2 : DF) (xy_cols2 : List String) (colPrefix id_col : String)
    (h1 : nRows df ≠ 0) (h2 : nRows df2 ≠ 0)
    (hfresh : ∀ c ∈ ["x", "y", "z", colPrefix ++ "_assigned_id", colPrefix ++ "_euclidean"],
      c ∉ colNames df)
    (hnodup : (["x", "y", "z", colPrefix ++ "_assigned_id", colPrefix ++ "_euclidean"] :
      List String).Nodup)
    (hfresh2 : ∀ c ∈ ["x", "y", "z"], c ∉ colNames df2) :
    colNames (calculate_distance_df df xy_cols df2 xy_cols2 colPrefix id_col).1 =
      colNames df ++ ["x", "y", "z", colPrefix ++ "_assigned_id", colPrefix ++ "_euclidean"] ∧
    (∀ c ∈ colNames df,
      getCol (calculate_distance_df df xy_cols df2 xy_cols2 colPrefix id_col).1 c =
        getCol df c) ∧
    colNames (calculate_distance_df df xy_cols df2 xy_cols2 colPrefix id_col).2.1 =
      colNames df2 ++ ["x", "y", "z"] ∧
    (∀ c ∈ colNames df2,
      getCol (calculate_distance_df df xy_cols df2 xy_cols2 colPrefix id_col).2.1 c =
        getCol df2 c) ∧
    (∀ c ∈ (["x", "y", "z"] : List String),
      c ∉ colNames (calculate_distance_df df xy_cols df2 xy_cols2 colPrefix id_col).2.2) := by
  have hcond : ¬(nRows df = 0 ∨ nRows df2 = 0) := not_or.mpr ⟨h1, h2⟩
  simp only [calculate_distance_df, if_neg hcond]
  refine ⟨?_, ?_, ?_, ?_, ?_⟩
  · exact (setCol_chain5 df _ _ _ _ _ _ _ _ _ _ hfresh hnodup).1
  · exact (setCol_chain5 df _ _ _ _ _ _ _ _ _ _ hfresh hnodup).2
  · exact (setCol_chain3 df2 _ _ _ _ _ _ hfresh2 (by decide)).1
  · exact (setCol_chain3 df2 _ _ _ _ _ _ hfresh2 (by decide)).2
  · intro c hc
    exact not_mem_colNames_dropCols hc

/-- Witness for C10 at concrete one-row location and facility frames. -/
theorem C10_calculate_distance_df_frame_effect_witness :
    colNames (calculate_distance_df [("lon", [0]), ("lat", [0])] ["lon", "lat"]
        [("lon", [1]), ("lat", [0]), ("facility_id", [7])] ["lon", "lat"] "hh" "facility_id").1 =
      colNames [("lon", [0]), ("lat", [0])] ++
        ["x", "y", "z", "hh" ++ "_assigned_id", "hh" ++ "_euclidean"] ∧
    (∀ c ∈ colNames [("lon", [0]), ("lat", [0])],
      getCol (calculate_distance_df [("lon", [0]), ("lat", [0])] ["lon", "lat"]
          [("lon", [1]), ("lat", [0]), ("facility_id", [7])] ["lon", "lat"] "hh" "facility_id").1 c =
        getCol [("lon", [0]), ("lat", [0])] c) ∧
    colNames (calculate_distance_df [("lon", [0]), ("lat", [0])] ["lon", "lat"]
        [("lon", [1]), ("lat", [0]), ("facility_id", [7])] ["lon", "lat"] "hh" "facility_id").2.1 =
      colNames [("lon", [1]), ("lat", [0]), ("facility_id", [7])] ++ ["x", "y", "z"] ∧
    (∀ c ∈ colNames [("lon", [1]), ("lat", [0]), ("facility_id", [7])],
      getCol (calculate_distance_df [("lon", [0]), ("lat", [0])] ["lon", "lat"]
          [("lon", [1]), ("lat", [0]), ("facility_id", [7])] ["lon", "lat"] "hh" "facility_id").2.1 c =
        getCol [("lon", [1]), ("lat", [0]), ("facility_id", [7])] c) ∧
    (∀ c ∈ (["x", "y", "z"] : List String),
      c ∉ colNames (calculate_distance_df [("lon", [0]), ("lat", [0])] ["lon", "lat"]
        [("lon", [1]), ("lat", [0]), ("facility_id", [7])] ["lon", "lat"] "hh" "facility_id").2.2) :=
  C10_calculate_distance_df_frame_effect [("lon", [0]), ("lat", [0])] ["lon", "lat"]
    [("lon", [1]), ("lat", [0]), ("facility_id", [7])] ["lon", "lat"] "hh" "facility_id"
    (by decide) (by decide) (by decide) (by decide) (by decide)

end DeepFacility
